import Mathlib

/-!
Shallow embedding of the `flask_restle` library (src/flask_restle/__init__.py)
and verification of its specification claims.

The library is a thin layer over Flask/Werkzeug.  The host framework's
request object, response construction, JSON serialization primitives and
regex engine are external collaborators; they are modelled here by explicit
structures and parameters, while every piece of logic written in the
repository itself (dispatch validation, status defaulting, response
building, the error type, route registration, the custom JSON encoder's
fallback chain, and the converter regular expressions) is translated
directly from the source.
-/

set_option autoImplicit false

namespace FlaskRestle

/-- A small JSON-like value type for dict payload values. -/
inductive JVal where
  | str (s : String)
  | num (n : Int)
deriving DecidableEq, Repr

/-- Association-list lookup, first match wins (Python dict lookup on a
dict represented as its ordered item list without duplicate keys). -/
def aGet {β : Type} : List (String × β) → String → Option β
  | [], _ => none
  | (k, v) :: rest, q => if k = q then some v else aGet rest q

/-- Python `d[k] = v` on an ordered dict represented as its item list
(no duplicate keys): if the key is present its value is replaced in place,
otherwise the pair is appended. -/
def dictSet : List (String × JVal) → String → JVal → List (String × JVal)
  | [], k, v => [(k, v)]
  | (k0, v0) :: rest, k, v =>
    if k0 = k then (k, v) :: rest else (k0, v0) :: dictSet rest k v

/-- The `api_error` exception: `message`, `status_code` (class default 400),
optional `payload` dict. -/
structure api_error where
  message : String
  status_code : Nat
  payload : Option (List (String × JVal))
deriving DecidableEq, Repr

/-- `api_error.__init__(self, message, status_code=None, payload=None)`:
the class attribute `status_code = 400` is overridden only when the
`status_code` argument is not `None`. -/
def api_error.init (message : String) (status_code : Option Nat)
    (payload : Option (List (String × JVal))) : api_error :=
  { message := message, status_code := status_code.getD 400, payload := payload }

/-- `api_error.to_dict`: `rv = dict(self.payload or ()); rv['error_message'] = self.message`. -/
def api_error.to_dict (e : api_error) : List (String × JVal) :=
  dictSet (e.payload.getD []) "error_message" (.str e.message)

/-- An inbound request as the dispatcher reads it from the framework:
`request.method`, `request.data` (raw body, empty string when absent) and
`request.mimetype`. -/
structure HttpRequest where
  method : String
  data : String
  mimetype : String
deriving DecidableEq, Repr

/-- A framework response object (`current_app.response_class(body, status=...,
mimetype=..., headers=...)`): body (None or text), status, mimetype, headers. -/
structure HttpResponse where
  body : Option String
  status : Nat
  mimetype : Option String
  headers : List (String × String)
deriving DecidableEq, Repr

/-- The mutable attribute state of an `API(View)` dispatcher object.
`hasHandler m` models `getattr(self, m, None)` yielding a truthy bound
method, i.e. whether the resource class defines a handler for method `m`. -/
structure APIState where
  method : Option String
  response_headers : List (String × String)
  response_status : Option Nat
  response_mimetype : String
  hasHandler : String → Bool

/-- The class-attribute defaults of `API`: `method = None`,
`response_headers = {}`, `response_status = None`,
`response_mimetype = "application/json"`. -/
def APIState.initial (hasHandler : String → Bool) : APIState :=
  { method := none, response_headers := [], response_status := none,
    response_mimetype := "application/json", hasHandler := hasHandler }

/-- `API.response_status_defaults` as the dict written in the source. -/
def response_status_defaults : List (String × Nat) :=
  [("delete", 200), ("get", 200), ("patch", 200), ("post", 200), ("put", 201)]

/-- Python's `str.lower()` on the ASCII strings the dispatcher applies it
to (HTTP method names), character by character. -/
def pyLower (s : String) : String := ⟨s.data.map Char.toLower⟩

/-- Python truthiness of the `body` argument (`not body`): falsy when
`None` or the empty string. -/
def bodyFalsy : Option String → Bool
  | none => true
  | some s => s == ""

/-- `API.build_response(self, body=None)`.  Returns `none` exactly when a
`KeyError` would escape from `self.response_status_defaults[...]` (possible
only for an unsupported method with no truthy `response_status` set, since
Python's `or` short-circuits). -/
def build_response (self : APIState) (req : HttpRequest) (body : Option String) :
    Option HttpResponse :=
  let mimetype : Option String := if bodyFalsy body then none else some self.response_mimetype
  let status? : Option Nat := match self.response_status with
    | some s => if s == 0 then aGet response_status_defaults (pyLower req.method) else some s
    | none => aGet response_status_defaults (pyLower req.method)
  match status? with
  | none => none
  | some st =>
    let st := if st == 200 && bodyFalsy body then 204 else st
    some { body := body, status := st, mimetype := mimetype, headers := self.response_headers }

/-- The possible values a handler method can return: `None`, a plain
serializable value, an object whose exact runtime type is werkzeug's
`BaseResponse`, or an instance of a proper subclass of `BaseResponse`
(e.g. Flask's actual response class).  The last two are distinguished
because the source tests `type(output) == type(BaseResponse())`, an exact
type comparison, not `isinstance`. -/
inductive HandlerOutput (α : Type) where
  | noneVal
  | value (v : α)
  | baseResponse (r : HttpResponse)
  | subclassResponse (r : HttpResponse)

/-- Outcome of one dispatch: a response, a raised `api_error`, a `TypeError`
raised by `json.dumps` on an unserializable object, or a `KeyError` from the
status-defaults dict. -/
inductive DispatchResult where
  | ok (r : HttpResponse)
  | err (e : api_error)
  | typeError
  | keyError
deriving DecidableEq, Repr

/-- `API.dispatch_request`.  The handler's behaviour is a parameter: `hook`
is the outcome of `self.dispatch_init` (which may raise), `output` is what
`method(*args, **kwargs)` returns when invoked, and `dumps` models
`json.dumps(·, indent=4, sort_keys=True)` on serializable values.  The pair
returned is (raised-or-returned outcome, the instance state afterwards):
line 36 of the source assigns `self.method = request.method.lower()`. -/
def dispatch_request {α : Type} (self : APIState) (req : HttpRequest)
    (hook : Except api_error Unit) (output : HandlerOutput α) (dumps : α → String) :
    DispatchResult × APIState :=
  let self := { self with method := some (pyLower req.method) }
  let m := pyLower req.method
  let res : DispatchResult :=
    if req.data ≠ "" ∧ req.mimetype ≠ "application/json" then
      .err (api_error.init "Request payload mimetype must be 'application/json'" (some 415) none)
    else if m ∉ ["get", "put", "post", "delete", "patch"] ∨ self.hasHandler m = false then
      .err (api_error.init "HTTP method is not supported" (some 405) none)
    else
      match hook with
      | .error e => .err e
      | .ok _ =>
        match output with
        | .baseResponse r => .ok r
        | .subclassResponse _ => .typeError
        | .noneVal =>
          match build_response self req none with
          | some r => .ok r
          | none => .keyError
        | .value v =>
          match build_response self req (some (dumps v)) with
          | some r => .ok r
          | none => .keyError
  (res, self)

/-- One `add_url_rule` registration: the rule string, its `defaults`
mapping and its method list. -/
structure Route where
  rule : String
  defaults : List (String × Option Nat)
  methods : List String
deriving DecidableEq, Repr

/-- `register_api(blueprint, view, endpoint, url, pk='id', pk_type='int')`:
the three `add_url_rule` calls, in order.  The third rule is the format
string `'%s<%s:%s>' % (url, pk_type, pk)`. -/
def register_api (url : String) (pk : String) (pk_type : String) : List Route :=
  [ { rule := url, defaults := [(pk, none)], methods := ["GET"] },
    { rule := url, defaults := [], methods := ["POST"] },
    { rule := url ++ "<" ++ pk_type ++ ":" ++ pk ++ ">", defaults := [],
      methods := ["GET", "PUT", "DELETE"] } ]

/-- The `json_serializer` attribute of an object as `getattr` finds it:
absent, or present and callable (returning a value), or present but not
callable. -/
inductive SerAttr where
  | callableReturning (v : JVal)
  | notCallable
deriving DecidableEq, Repr

/-- The exact runtime type of a Python object, as far as the encoder's
`type(obj) is set` / `type(obj) is arrow.arrow.Arrow` tests can see it.
`frozenset` stands for a proper subtype of `set`. -/
inductive PyType where
  | set
  | frozenset
  | arrow
  | other
deriving DecidableEq, Repr

/-- An object reaching `CustomJSONEncoder.default`: its `json_serializer`
attribute, its exact runtime type, its members (when set-like) and its
`isoformat()` (when an Arrow timestamp). -/
structure PyObj where
  json_serializer : Option SerAttr
  ty : PyType
  elems : List JVal
  isoformat : String
deriving DecidableEq, Repr

/-- The three possible successful encodings produced by
`CustomJSONEncoder.default`. -/
inductive EncOut where
  | fromSerializer (v : JVal)
  | asList (l : List JVal)
  | isoStr (s : String)
deriving DecidableEq, Repr

/-- `CustomJSONEncoder.default(self, obj)`: use a callable
`json_serializer` attribute if present; else `type(obj) is set` gives a
list of members; else `type(obj) is arrow.arrow.Arrow` gives
`obj.isoformat()`; else `json.JSONEncoder.default` raises
`TypeError(... is not JSON serializable)`. -/
def CustomJSONEncoder.default (obj : PyObj) : Except String EncOut :=
  match obj.json_serializer with
  | some (.callableReturning v) => .ok (.fromSerializer v)
  | _ =>
    if obj.ty = PyType.set then .ok (.asList obj.elems)
    else if obj.ty = PyType.arrow then .ok (.isoStr obj.isoformat)
    else .error "not JSON serializable"

/-- Regular expressions over characters, with character classes given as
decidable predicates; enough to express the converter patterns (which use
no unbounded repetition except in the email pattern, not matched here). -/
inductive RE where
  | fail
  | eps
  | cls (p : Char → Bool)
  | cat (r s : RE)
  | alt (r s : RE)

/-- Does the regular expression accept the empty string? -/
def RE.nullable : RE → Bool
  | .fail => false
  | .eps => true
  | .cls _ => false
  | .cat r s => r.nullable && s.nullable
  | .alt r s => r.nullable || s.nullable

/-- Smart concatenation (keeps derivatives small). -/
def RE.scat : RE → RE → RE
  | .fail, _ => .fail
  | _, .fail => .fail
  | .eps, s => s
  | r, .eps => r
  | r, s => .cat r s

/-- Smart alternation (keeps derivatives small). -/
def RE.salt : RE → RE → RE
  | .fail, s => s
  | r, .fail => r
  | r, s => .alt r s

/-- Brzozowski derivative of a regular expression by one character. -/
def RE.deriv : RE → Char → RE
  | .fail, _ => .fail
  | .eps, _ => .fail
  | .cls p, c => if p c then .eps else .fail
  | .cat r s, c =>
    if r.nullable then .salt (.scat (r.deriv c) s) (s.deriv c)
    else .scat (r.deriv c) s
  | .alt r s, c => .salt (r.deriv c) (s.deriv c)

/-- Full (anchored) match of a string against a regular expression, as the
routing layer applies a converter's regex to one path segment. -/
def RE.fullmatch (r : RE) (s : String) : Bool :=
  (s.data.foldl RE.deriv r).nullable

/-- A literal character. -/
def RE.chr (c : Char) : RE := .cls (fun x => x == c)

/-- The character class `[0-9]` (also written `\d` in the source). -/
def digitRE : RE := .cls (fun c => '0' ≤ c && c ≤ '9')

/-- `EmailConverter`'s regex attribute, the literal string from the source. -/
def EmailConverter.regex : String := "[^@ ]+@[^@ ]+\\.[^@ ]+"

/-- `IPv4Converter`'s regex attribute, the literal string from the source. -/
def IPv4Converter.regex : String :=
  "(([0-9]|[1-9][0-9]|1[0-9]{2}|2[0-4][0-9]|25[0-5])\\.){3}([0-9]|[1-9][0-9]|1[0-9]{2}|2[0-4][0-9]|25[0-5])"

/-- `CidrConverter`'s regex attribute, the literal string from the source. -/
def CidrConverter.regex : String :=
  "(([0-9]|[1-9][0-9]|1[0-9]{2}|2[0-4][0-9]|25[0-5])\\.){3}([0-9]|[1-9][0-9]|1[0-9]{2}|2[0-4][0-9]|25[0-5])(\\/([1-2]\\d|3[0-2]|\\d))"

/-- The octet group `([0-9]|[1-9][0-9]|1[0-9]{2}|2[0-4][0-9]|25[0-5])`
parsed into the regex AST. -/
def octetRE : RE :=
  .alt digitRE
    (.alt (.cat (.cls (fun c => '1' ≤ c && c ≤ '9')) digitRE)
      (.alt (.cat (RE.chr '1') (.cat digitRE digitRE))
        (.alt (.cat (RE.chr '2') (.cat (.cls (fun c => '0' ≤ c && c ≤ '4')) digitRE))
          (.cat (RE.chr '2') (.cat (RE.chr '5') (.cls (fun c => '0' ≤ c && c ≤ '5')))))))

/-- `IPv4Converter.regex` parsed into the regex AST:
`(octet\.){3}octet`. -/
def ipv4RE : RE :=
  let g : RE := .cat octetRE (RE.chr '.')
  .cat g (.cat g (.cat g octetRE))

/-- The CIDR length group `([1-2]\d|3[0-2]|\d)` parsed into the regex AST. -/
def cidrLenRE : RE :=
  .alt (.cat (.cls (fun c => '1' ≤ c && c ≤ '2')) digitRE)
    (.alt (.cat (RE.chr '3') (.cls (fun c => '0' ≤ c && c ≤ '2'))) digitRE)

/-- `CidrConverter.regex` parsed into the regex AST: the IPv4 pattern
followed by `(\/([1-2]\d|3[0-2]|\d))`. -/
def cidrRE : RE := .cat ipv4RE (.cat (RE.chr '/') cidrLenRE)

/-! Helper lemmas about dict operations. -/

theorem aGet_dictSet_self (d : List (String × JVal)) (k : String) (v : JVal) :
    aGet (dictSet d k v) k = some v := by
  induction d with
  | nil => simp [dictSet, aGet]
  | cons a rest ih =>
    obtain ⟨k0, v0⟩ := a
    by_cases h0 : k0 = k
    · simp [dictSet, h0, aGet]
    · simp only [dictSet, h0, if_false, aGet]
      exact ih

theorem aGet_dictSet_ne (d : List (String × JVal)) (k : String) (v : JVal)
    (q : String) (hq : q ≠ k) :
    aGet (dictSet d k v) q = aGet d q := by
  have hkq : ¬ k = q := fun hkq => hq hkq.symm
  induction d with
  | nil => simp [dictSet, aGet, hkq]
  | cons a rest ih =>
    obtain ⟨k0, v0⟩ := a
    by_cases h0 : k0 = k
    · simp only [dictSet, h0, if_true, aGet, hkq, if_false]
    · simp only [dictSet, h0, if_false, aGet]
      by_cases h0q : k0 = q
      · simp [h0q]
      · simp only [h0q, if_false]
        exact ih

/-! Claim theorems. -/

/-- C1: exactly one response status is chosen per dispatched request: the
instance's status override (when set, to a nonzero value, as every HTTP
status is) is used, otherwise the per-method default (GET=200, POST=200,
PUT=201, PATCH=200, DELETE=200); a computed 200 with an empty body becomes
204; a handler returning `None` with no override yields 201 for PUT and
204 for the four methods whose default is 200. -/
theorem c1_status_selection (self : APIState) (req : HttpRequest) (body : Option String)
    (d : Nat) :
    (aGet response_status_defaults "get" = some 200
      ∧ aGet response_status_defaults "post" = some 200
      ∧ aGet response_status_defaults "put" = some 201
      ∧ aGet response_status_defaults "patch" = some 200
      ∧ aGet response_status_defaults "delete" = some 200)
  ∧ (∀ s, self.response_status = some s → s ≠ 0 →
      build_response self req body =
        some { body := body,
               status := if s == 200 && bodyFalsy body then 204 else s,
               mimetype := if bodyFalsy body then none else some self.response_mimetype,
               headers := self.response_headers })
  ∧ (self.response_status = none →
      aGet response_status_defaults (pyLower req.method) = some d →
      build_response self req body =
        some { body := body,
               status := if d == 200 && bodyFalsy body then 204 else d,
               mimetype := if bodyFalsy body then none else some self.response_mimetype,
               headers := self.response_headers })
  ∧ (self.response_status = none →
      self.hasHandler (pyLower req.method) = true →
      ¬ (req.data ≠ "" ∧ req.mimetype ≠ "application/json") →
      pyLower req.method ∈ ["get", "put", "post", "delete", "patch"] →
      (dispatch_request self req (.ok ()) (HandlerOutput.noneVal (α := Unit))
          (fun _ => "")).1 =
        .ok { body := none,
              status := if pyLower req.method = "put" then 201 else 204,
              mimetype := none, headers := self.response_headers }) := by
  refine ⟨⟨by decide, by decide, by decide, by decide, by decide⟩, ?_, ?_, ?_⟩
  · intro s hrs hs0
    have h0 : (s == 0) = false := by simp [hs0]
    simp [build_response, hrs, h0]
  · intro hrs hd
    simp only [build_response, hrs, hd]
  · intro hrs hh h415 hm
    have hg : ¬ (pyLower req.method ∉ ["get", "put", "post", "delete", "patch"] ∨
        self.hasHandler (pyLower req.method) = false) := by
      push_neg
      exact ⟨hm, by simp [hh]⟩
    simp only [dispatch_request]
    rw [if_neg h415, if_neg hg]
    simp only [List.mem_cons, List.not_mem_nil, or_false] at hm
    rcases hm with h | h | h | h | h <;>
      simp [build_response, hrs, h, aGet, response_status_defaults, bodyFalsy]

/-- Witness for C1: an override of 404 is used verbatim; an empty GET body
with no override gives 204; an empty PUT body with no override gives 201. -/
theorem c1_status_selection_witness :
    build_response ⟨none, [], some 404, "application/json", fun m => m == "get"⟩
        ⟨"GET", "", ""⟩ (some "x") =
      some { body := some "x", status := 404, mimetype := some "application/json", headers := [] }
  ∧ build_response (APIState.initial (fun m => m == "get")) ⟨"GET", "", ""⟩ none =
      some { body := none, status := 204, mimetype := none, headers := [] }
  ∧ (dispatch_request (APIState.initial (fun m => m == "put")) ⟨"PUT", "", ""⟩ (.ok ())
        (HandlerOutput.noneVal (α := Unit)) (fun _ => "")).1 =
      .ok { body := none, status := 201, mimetype := none, headers := [] } :=
  ⟨(c1_status_selection ⟨none, [], some 404, "application/json", fun m => m == "get"⟩
      ⟨"GET", "", ""⟩ (some "x") 200).2.1 404 rfl (by decide),
   (c1_status_selection (APIState.initial (fun m => m == "get")) ⟨"GET", "", ""⟩ none 200).2.2.1
      rfl (by decide),
   (c1_status_selection (APIState.initial (fun m => m == "put")) ⟨"PUT", "", ""⟩ none 201).2.2.2
      rfl (by decide) (by decide) (by decide)⟩

/-- C2: a supported request whose handler returns a plain non-`None` value
gets a response whose body is the JSON serialization of that value, whose
MIME type is `application/json`, and whose status is the per-method default
unless the instance's status override is set. -/
theorem c2_json_body (α : Type) (self : APIState) (req : HttpRequest) (v : α)
    (dumps : α → String) (d : Nat)
    (h415 : ¬ (req.data ≠ "" ∧ req.mimetype ≠ "application/json"))
    (hm : pyLower req.method ∈ ["get", "put", "post", "delete", "patch"])
    (hh : self.hasHandler (pyLower req.method) = true)
    (hd : aGet response_status_defaults (pyLower req.method) = some d)
    (hnz : ∀ s, self.response_status = some s → s ≠ 0)
    (hne : dumps v ≠ "")
    (hjson : self.response_mimetype = "application/json") :
    (dispatch_request self req (.ok ()) (HandlerOutput.value v) dumps).1 =
      .ok { body := some (dumps v), status := self.response_status.getD d,
            mimetype := some "application/json", headers := self.response_headers } := by
  have hg : ¬ (pyLower req.method ∉ ["get", "put", "post", "delete", "patch"] ∨
      self.hasHandler (pyLower req.method) = false) := by
    push_neg
    exact ⟨hm, by simp [hh]⟩
  have hbf : bodyFalsy (some (dumps v)) = false := by simp [bodyFalsy, hne]
  simp only [dispatch_request]
  rw [if_neg h415, if_neg hg]
  simp only [build_response, hbf, hjson]
  rcases hrs : self.response_status with _ | s
  · simp [hrs, hd]
  · have hs0 : (s == 0) = false := by simp [hnz s hrs]
    simp [hrs, hs0]

/-- Witness for C2: a GET handler returning the serialized value `[1]`. -/
theorem c2_json_body_witness :
    (dispatch_request (APIState.initial (fun m => m == "get")) ⟨"GET", "", ""⟩ (.ok ())
        (HandlerOutput.value "[1]") (fun s => s)).1 =
      .ok { body := some "[1]", status := 200,
            mimetype := some "application/json", headers := [] } :=
  c2_json_body String (APIState.initial (fun m => m == "get")) ⟨"GET", "", ""⟩ "[1]"
    (fun s => s) 200 (by decide) (by decide) (by decide) (by decide)
    (fun s hs => Option.noConfusion hs) (by decide) rfl

/-- C3: dispatch validates in order, before the `dispatch_init` hook or the
handler can run (the conclusion holds for every hook outcome and every
handler output): a non-empty body with a non-JSON declared content type
raises a 415 error regardless of method; after that check, a lower-cased
method outside get/put/post/delete/patch, or one the resource has no
handler attribute for, raises a 405 error. -/
theorem c3_validation_order {α : Type} (self : APIState) (req : HttpRequest)
    (hook : Except api_error Unit) (output : HandlerOutput α) (dumps : α → String) :
    (req.data ≠ "" ∧ req.mimetype ≠ "application/json" →
      (dispatch_request self req hook output dumps).1 =
        .err (api_error.init "Request payload mimetype must be 'application/json'" (some 415) none))
  ∧ (¬ (req.data ≠ "" ∧ req.mimetype ≠ "application/json") →
      (pyLower req.method ∉ ["get", "put", "post", "delete", "patch"] ∨
        self.hasHandler (pyLower req.method) = false) →
      (dispatch_request self req hook output dumps).1 =
        .err (api_error.init "HTTP method is not supported" (some 405) none)) := by
  constructor
  · intro h
    simp only [dispatch_request]
    rw [if_pos h]
  · intro h1 h2
    simp only [dispatch_request]
    rw [if_neg h1, if_pos h2]

/-- Witness for C3: a POST with a non-JSON body gets 415; an OPTIONS
request gets 405 (unsupported method); a PUT to a resource defining only a
`get` handler gets 405 (no handler attribute). -/
theorem c3_validation_order_witness :
    (dispatch_request (APIState.initial (fun m => m == "get")) ⟨"POST", "x", "text/plain"⟩
        (.ok ()) (HandlerOutput.noneVal (α := Unit)) (fun _ => "")).1 =
      .err (api_error.init "Request payload mimetype must be 'application/json'" (some 415) none)
  ∧ (dispatch_request (APIState.initial (fun m => m == "get")) ⟨"OPTIONS", "", ""⟩
        (.ok ()) (HandlerOutput.noneVal (α := Unit)) (fun _ => "")).1 =
      .err (api_error.init "HTTP method is not supported" (some 405) none)
  ∧ (dispatch_request (APIState.initial (fun m => m == "get")) ⟨"PUT", "", ""⟩
        (.ok ()) (HandlerOutput.noneVal (α := Unit)) (fun _ => "")).1 =
      .err (api_error.init "HTTP method is not supported" (some 405) none) :=
  ⟨(c3_validation_order _ _ _ _ _).1 (by decide),
   (c3_validation_order _ _ _ _ _).2 (by decide) (by decide),
   (c3_validation_order _ _ _ _ _).2 (by decide) (by decide)⟩

/-- C5 as stated is false on the code: the pass-through test is the exact
type comparison `type(output) == type(BaseResponse())`, so a response
object of a proper subclass of `BaseResponse` — which is what the host
framework's own response class produces — is not returned unchanged. -/
theorem c5_subclass_counterexample :
    (dispatch_request (APIState.initial (fun m => m == "get")) ⟨"GET", "", ""⟩ (.ok ())
        (HandlerOutput.subclassResponse (α := Unit) ⟨some "hi", 200, some "text/html", []⟩)
        (fun _ => "")).1
      ≠ .ok ⟨some "hi", 200, some "text/html", []⟩ := by decide

/-- C5, amended: only a handler return value whose exact runtime type is
werkzeug's `BaseResponse` is returned unchanged (no re-serialization, no
status override, no header or MIME changes); a response of a proper
subclass instead flows into JSON serialization, which raises a
`TypeError`. -/
theorem c5_exact_type_passthrough {α : Type} (self : APIState) (req : HttpRequest)
    (r : HttpResponse) (dumps : α → String)
    (h415 : ¬ (req.data ≠ "" ∧ req.mimetype ≠ "application/json"))
    (hm : pyLower req.method ∈ ["get", "put", "post", "delete", "patch"])
    (hh : self.hasHandler (pyLower req.method) = true) :
    (dispatch_request self req (.ok ()) (HandlerOutput.baseResponse (α := α) r) dumps).1 = .ok r
  ∧ (dispatch_request self req (.ok ()) (HandlerOutput.subclassResponse (α := α) r) dumps).1
      = .typeError := by
  have hg : ¬ (pyLower req.method ∉ ["get", "put", "post", "delete", "patch"] ∨
      self.hasHandler (pyLower req.method) = false) := by
    push_neg
    exact ⟨hm, by simp [hh]⟩
  constructor
  · simp only [dispatch_request]
    rw [if_neg h415, if_neg hg]
  · simp only [dispatch_request]
    rw [if_neg h415, if_neg hg]

/-- Witness for C5 (amended) at a concrete GET request. -/
theorem c5_exact_type_passthrough_witness :
    (dispatch_request (APIState.initial (fun m => m == "get")) ⟨"GET", "", ""⟩ (.ok ())
        (HandlerOutput.baseResponse (α := Unit) ⟨some "hi", 200, some "text/html", []⟩)
        (fun _ => "")).1 = .ok ⟨some "hi", 200, some "text/html", []⟩
  ∧ (dispatch_request (APIState.initial (fun m => m == "get")) ⟨"GET", "", ""⟩ (.ok ())
        (HandlerOutput.subclassResponse (α := Unit) ⟨some "hi", 200, some "text/html", []⟩)
        (fun _ => "")).1 = .typeError :=
  c5_exact_type_passthrough _ _ _ _ (by decide) (by decide) (by decide)

/-- C9 as stated is false on the code: `dispatch_request` begins with
`self.method = request.method.lower()`, a write to a field of the
dispatcher instance, so dispatching does not leave every instance field
unchanged. -/
theorem c9_method_write_counterexample :
    (dispatch_request (APIState.initial (fun _ => false)) ⟨"GET", "", ""⟩ (.ok ())
        (HandlerOutput.noneVal (α := Unit)) (fun _ => "")).2.method
      ≠ (APIState.initial (fun _ => false)).method := by decide

/-- C9, amended: dispatching writes exactly one field of the dispatcher
instance — `method`, set to the lower-cased request method — and leaves
every other field unchanged; per-request scratch state therefore lives on
the instance itself, and cross-request safety relies on the host
framework's view machinery constructing a fresh instance per request
rather than on storage separate from the instance. -/
theorem c9_method_field_write {α : Type} (self : APIState) (req : HttpRequest)
    (hook : Except api_error Unit) (output : HandlerOutput α) (dumps : α → String) :
    (dispatch_request self req hook output dumps).2 =
      { self with method := some (pyLower req.method) } := rfl

/-- C6: for every error value constructed with message `m` and optional
payload `p`, `to_dict()` returns the mapping `p` (empty when `p` is absent)
extended with key `error_message` bound to `m`, overwriting any
`error_message` key already present in `p`; and an error constructed
without an explicit status code (a null one) has status code 400. -/
theorem c6_to_dict_merges_payload (m : String) (sc : Option Nat)
    (p : Option (List (String × JVal))) (k : String) (hk : k ≠ "error_message") :
    aGet (api_error.init m sc p).to_dict "error_message" = some (.str m)
  ∧ aGet (api_error.init m sc p).to_dict k = aGet (p.getD []) k
  ∧ (api_error.init m none p).status_code = 400 := by
  refine ⟨?_, ?_, rfl⟩
  · exact aGet_dictSet_self (p.getD []) "error_message" (.str m)
  · exact aGet_dictSet_ne (p.getD []) "error_message" (.str m) k hk

/-- Witness for C6 at the spec's own example
`Error("bad", 400, {"field": "name"})`. -/
theorem c6_to_dict_merges_payload_witness :
    aGet (api_error.init "bad" (some 400) (some [("field", JVal.str "name")])).to_dict
        "error_message" = some (.str "bad")
  ∧ aGet (api_error.init "bad" (some 400) (some [("field", JVal.str "name")])).to_dict
        "field" = aGet ((some [("field", JVal.str "name")]).getD []) "field"
  ∧ (api_error.init "bad" none (some [("field", JVal.str "name")])).status_code = 400 :=
  c6_to_dict_merges_payload "bad" (some 400) (some [("field", JVal.str "name")]) "field"
    (by decide)

/-- C7: precedence of the custom JSON encoder's fallback chain: a callable
`json_serializer` attribute wins; else an object whose exact type is `set`
becomes the list of its members; else an Arrow timestamp becomes its
ISO-8601 string; else encoding fails with a `not JSON serializable` error. -/
theorem c7_encoder_precedence (obj : PyObj) :
    (∀ v, obj.json_serializer = some (.callableReturning v) →
      CustomJSONEncoder.default obj = .ok (.fromSerializer v))
  ∧ ((∀ v, obj.json_serializer ≠ some (.callableReturning v)) → obj.ty = PyType.set →
      CustomJSONEncoder.default obj = .ok (.asList obj.elems))
  ∧ ((∀ v, obj.json_serializer ≠ some (.callableReturning v)) → obj.ty ≠ PyType.set →
      obj.ty = PyType.arrow →
      CustomJSONEncoder.default obj = .ok (.isoStr obj.isoformat))
  ∧ ((∀ v, obj.json_serializer ≠ some (.callableReturning v)) → obj.ty ≠ PyType.set →
      obj.ty ≠ PyType.arrow →
      CustomJSONEncoder.default obj = .error "not JSON serializable") := by
  obtain ⟨js, ty, elems, iso⟩ := obj
  refine ⟨?_, ?_, ?_, ?_⟩
  · intro v hv
    simp only at hv
    subst hv
    rfl
  · intro hnc hty
    simp only at hty
    subst hty
    match js with
    | none => rfl
    | some .notCallable => rfl
    | some (.callableReturning v) => exact absurd rfl (hnc v)
  · intro hnc htys htya
    simp only at htys htya ⊢
    subst htya
    match js with
    | none => rfl
    | some .notCallable => rfl
    | some (.callableReturning v) => exact absurd rfl (hnc v)
  · intro hnc htys htya
    simp only at htys htya ⊢
    have : CustomJSONEncoder.default ⟨js, ty, elems, iso⟩ =
        (if ty = PyType.set then Except.ok (.asList elems)
         else if ty = PyType.arrow then Except.ok (.isoStr iso)
         else Except.error "not JSON serializable") := by
      match js with
      | none => rfl
      | some .notCallable => rfl
      | some (.callableReturning v) => exact absurd rfl (hnc v)
    rw [this, if_neg htys, if_neg htya]

/-- Witness for C7, exercising all four branches at concrete objects. -/
theorem c7_encoder_precedence_witness :
    CustomJSONEncoder.default ⟨some (.callableReturning (.num 1)), PyType.set, [], ""⟩
      = .ok (.fromSerializer (.num 1))
  ∧ CustomJSONEncoder.default ⟨none, PyType.set, [.num 2], ""⟩ = .ok (.asList [.num 2])
  ∧ CustomJSONEncoder.default ⟨some .notCallable, PyType.arrow, [], "2020-01-02T03:04:05+00:00"⟩
      = .ok (.isoStr "2020-01-02T03:04:05+00:00")
  ∧ CustomJSONEncoder.default ⟨none, PyType.other, [], ""⟩
      = .error "not JSON serializable" :=
  ⟨(c7_encoder_precedence _).1 (.num 1) rfl,
   (c7_encoder_precedence _).2.1 (fun v hv => by simp at hv) rfl,
   (c7_encoder_precedence _).2.2.1 (fun v hv => by simp at hv) (by decide) rfl,
   (c7_encoder_precedence _).2.2.2 (fun v hv => by simp at hv) (by decide) (by decide)⟩

/-- C10: the set-to-list rule applies only to exact `set` instances: a value
of a proper subtype of `set` (here `frozenset`) with no callable
`json_serializer` attribute fails with the `not JSON serializable` error
instead of producing a list. -/
theorem c10_frozenset_not_encoded (obj : PyObj)
    (hnc : ∀ v, obj.json_serializer ≠ some (.callableReturning v))
    (hty : obj.ty = PyType.frozenset) :
    CustomJSONEncoder.default obj = .error "not JSON serializable" := by
  obtain ⟨js, ty, elems, iso⟩ := obj
  simp only at hty
  subst hty
  match js with
  | none => rfl
  | some .notCallable => rfl
  | some (.callableReturning v) => exact absurd rfl (hnc v)

/-- Witness for C10 at the concrete value `frozenset({1, 2})`. -/
theorem c10_frozenset_not_encoded_witness :
    CustomJSONEncoder.default ⟨none, PyType.frozenset, [.num 1, .num 2], ""⟩
      = .error "not JSON serializable" :=
  c10_frozenset_not_encoded ⟨none, PyType.frozenset, [.num 1, .num 2], ""⟩
    (fun v hv => by simp at hv) rfl

/-- C8: the email converter's regex is the exact pattern from the spec; the
IPv4 converter's regex fully matches `192.168.1.1` and `255.255.255.255`;
the CIDR converter's regex fully matches `10.0.0.0/8` and does not fully
match `10.0.0.0/33`. -/
theorem c8_converter_regexes :
    EmailConverter.regex = "[^@ ]+@[^@ ]+\\.[^@ ]+"
  ∧ ipv4RE.fullmatch "192.168.1.1" = true
  ∧ ipv4RE.fullmatch "255.255.255.255" = true
  ∧ cidrRE.fullmatch "10.0.0.0/8" = true
  ∧ cidrRE.fullmatch "10.0.0.0/33" = false := by
  refine ⟨rfl, ?_, ?_, ?_, ?_⟩ <;> decide

/-- C4 as stated is false on the code: `register_api` builds the item rule
by direct string concatenation `'%s<%s:%s>' % (url, pk_type, pk)`, so with
base URL `/widgets` no registered rule equals `/widgets/<int:id>`; the item
rule is `/widgets<int:id>`. -/
theorem c4_no_slash_counterexample :
    ((register_api "/widgets" "id" "int").map Route.rule)
        = ["/widgets", "/widgets", "/widgets<int:id>"]
  ∧ ¬ ((register_api "/widgets" "id" "int").any
        (fun r => r.rule == "/widgets/<int:id>")) := by
  exact ⟨rfl, by decide⟩

/-- C4, amended: registering at base `/widgets` with pk `id` of path type
`int` yields exactly the five routes GET and POST at `/widgets` (primary
key bound to a null default for GET only) and GET, PUT, DELETE at
`/widgets<int:id>` — the base URL directly concatenated with the typed
primary-key segment, with no slash inserted; the spec's slash-separated
shape arises exactly when the base URL itself ends in `/`. -/
theorem c4_register_api_routes :
    register_api "/widgets" "id" "int" =
      [ { rule := "/widgets", defaults := [("id", none)], methods := ["GET"] },
        { rule := "/widgets", defaults := [], methods := ["POST"] },
        { rule := "/widgets<int:id>", defaults := [],
          methods := ["GET", "PUT", "DELETE"] } ]
  ∧ register_api "/widgets/" "id" "int" =
      [ { rule := "/widgets/", defaults := [("id", none)], methods := ["GET"] },
        { rule := "/widgets/", defaults := [], methods := ["POST"] },
        { rule := "/widgets/<int:id>", defaults := [],
          methods := ["GET", "PUT", "DELETE"] } ] := by
  exact ⟨by decide, by decide⟩

end FlaskRestle
